import Mathlib

/-!
Verification of `dataclass_type_validator` (src/dataclass_type_validator/__init__.py).

This file shallowly embeds the descriptor-matching and aggregation code of the library:

* `PyType` / `Value` model the Python runtime values a dataclass field can hold,
  together with `isinstance` (including the `bool <: int` subclass rule) and the
  textual rendering `str()` / `repr()` that the f-strings of the library rely on.
* `TypeDescriptor` models the annotation object stored in `field.type`: either a
  plain class (`ty`), a `typing._GenericAlias` (the `gen*` constructors), or any
  other annotation object such as a string annotation (`nonType`).
* `_validate_type`, `_validate_typing_list`, `_validate_typing_dict`,
  `_validate_typing_callable`, `_validate_sequential_types`, `_validate_types`
  and `dataclass_type_validator` are direct translations of the functions of the
  same names.  A Python function that can raise `RuntimeError` is modelled in
  the `Except String` monad; its `Optional[str]` result is the `Option String`.
* `DataclassType` / `runInit` / `dataclass_validate` model the
  lifecycle interception performed by the decorator of `__init__` / `__post_init__` as event traces.
-/

namespace DTV

/-- The single-quote character, built numerically. -/
def sq : String := String.singleton (Char.ofNat 39)

/-- The double-quote character. -/
def dq : String := String.singleton (Char.ofNat 34)

/-- Opening curly brace (used by the Python `repr` of a `dict`). -/
def lbr : String := String.singleton (Char.ofNat 123)

/-- Closing curly brace. -/
def rbr : String := String.singleton (Char.ofNat 125)

/-- The built-in Python classes that occur as field values in this model. -/
inductive PyType where
  | int
  | bool
  | str
  | float
  | list
  | dict
  | tuple
  | function
  | builtinFunction
  | noneType
deriving DecidableEq

/-- `cls.__name__` for each modelled class. -/
def PyType.pyName : PyType → String
  | .int => "int"
  | .bool => "bool"
  | .str => "str"
  | .float => "float"
  | .list => "list"
  | .dict => "dict"
  | .tuple => "tuple"
  | .function => "function"
  | .builtinFunction => "builtin_function_or_method"
  | .noneType => "NoneType"

/-- `str(cls)` for a class object: the `<class ...>` rendering. -/
def PyType.typeRepr (t : PyType) : String :=
  "<class " ++ sq ++ t.pyName ++ sq ++ ">"

/-- A Python runtime value, as far as the validator can observe it.
`float` carries its printed literal; `func` is a `def`/`lambda`-defined
function and `builtinFunc` a built-in such as `len` (both are invocable,
but they are instances of different classes). -/
inductive Value where
  | int (n : Int)
  | bool (b : Bool)
  | str (s : String)
  | float (lit : String)
  | list (xs : List Value)
  | dict (entries : List (Value × Value))
  | tuple (xs : List Value)
  | func (nm : String)
  | builtinFunc (nm : String)
  | pyNone

/-- `type(value)`. -/
def Value.typeOf : Value → PyType
  | .int _ => .int
  | .bool _ => .bool
  | .str _ => .str
  | .float _ => .float
  | .list _ => .list
  | .dict _ => .dict
  | .tuple _ => .tuple
  | .func _ => .function
  | .builtinFunc _ => .builtinFunction
  | .pyNone => .noneType

/-- Python `isinstance` on the modelled classes: the type matches exactly,
except that `bool` is a subclass of `int`. -/
def isinstance (v : Value) (t : PyType) : Bool :=
  v.typeOf == t || (v.typeOf == .bool && t == .int)

/-- Python `callable(v)`: functions and built-in functions are invocable. -/
def invocable : Value → Bool
  | .func _ => true
  | .builtinFunc _ => true
  | _ => false

/-- `repr` of a Python string (no escape-needing characters occur in this
model): single quotes, unless the string contains a single quote and no
double quote, in which case double quotes are used. -/
def pyStrRepr (s : String) : String :=
  if s.contains (Char.ofNat 39) && !(s.contains (Char.ofNat 34)) then
    dq ++ s ++ dq
  else
    sq ++ s ++ sq

mutual

/-- Python `repr(v)`.  For functions the memory address printed by CPython is
elided, since no claim depends on it. -/
def Value.reprPy : Value → String
  | .int n => toString n
  | .bool b => if b then "True" else "False"
  | .str s => pyStrRepr s
  | .float lit => lit
  | .list xs => "[" ++ String.intercalate ", " (reprListPy xs) ++ "]"
  | .dict es => lbr ++ String.intercalate ", " (reprEntriesPy es) ++ rbr
  | .tuple [x] => "(" ++ Value.reprPy x ++ ",)"
  | .tuple xs => "(" ++ String.intercalate ", " (reprListPy xs) ++ ")"
  | .func nm => "<function " ++ nm ++ ">"
  | .builtinFunc nm => "<built-in function " ++ nm ++ ">"
  | .pyNone => "None"

def reprListPy : List Value → List String
  | [] => []
  | v :: vs => Value.reprPy v :: reprListPy vs

def reprEntriesPy : List (Value × Value) → List String
  | [] => []
  | (k, w) :: es => (Value.reprPy k ++ ": " ++ Value.reprPy w) :: reprEntriesPy es

end

/-- Python `str(v)`: identity on strings, `repr` otherwise (for the types in
this model). -/
def Value.strPy : Value → String
  | .str s => s
  | v => v.reprPy

/-- The annotation object held in `dataclasses.fields(...)[i].type`.

* `ty t` — a plain class: `isinstance(expected_type, type)` holds.
* `genList`, `genDict`, `genCallable`, `genUnion` — a
  `typing._GenericAlias` whose `_name` is `List` / `Dict` / `Callable`,
  or whose `str` starts with `typing.Union` (a `Union` alias has
  `_name = None`).
* `genAliasOther nm` — any other `typing._GenericAlias`, e.g. bare
  `typing.Set` (`_name = nm`; `nm` is none of `List`/`Dict`/`Callable`
  and does not begin with `Union`).
* `nonType s` — an annotation that is neither a class nor a
  `typing._GenericAlias`, e.g. a string annotation; `s` is its `str`. -/
inductive TypeDescriptor where
  | ty (t : PyType)
  | genList (item : TypeDescriptor)
  | genDict (key value : TypeDescriptor)
  | genCallable
  | genUnion (alts : List TypeDescriptor)
  | genAliasOther (nm : String)
  | nonType (s : String)

mutual

/-- How `typing` renders a parameter inside `[...]`: plain classes by bare
name, typing aliases by their full `str`. -/
def TypeDescriptor.innerStr : TypeDescriptor → String
  | .ty t => t.pyName
  | .genList e => "typing.List[" ++ TypeDescriptor.innerStr e ++ "]"
  | .genDict k w =>
      "typing.Dict[" ++ TypeDescriptor.innerStr k ++ ", " ++ TypeDescriptor.innerStr w ++ "]"
  | .genCallable => "typing.Callable"
  | .genUnion alts => "typing.Union[" ++ String.intercalate ", " (innerStrList alts) ++ "]"
  | .genAliasOther nm => "typing." ++ nm
  | .nonType s => s

def innerStrList : List TypeDescriptor → List String
  | [] => []
  | t :: ts => TypeDescriptor.innerStr t :: innerStrList ts

end

/-- `str(expected_type)`: a plain class renders as `<class ...>`, a typing
alias as its `typing....` form. -/
def TypeDescriptor.strPy : TypeDescriptor → String
  | .ty t => t.typeRepr
  | d => d.innerStr

/-- Python repr of a list of strings, as an f-string renders `{errors}`. -/
def pyReprStrList (errs : List String) : String :=
  "[" ++ String.intercalate ", " (errs.map pyStrRepr) ++ "]"

/-- The truthy elements of a list of `Optional[str]`, as selected by the
comprehension `[x for x in errors if x]` (`None` and the empty string are falsy). -/
def truthyStrs (xs : List (Option String)) : List String :=
  xs.filterMap (fun x =>
    match x with
    | some s => if s = "" then none else some s
    | none => none)

/-- A validator result: `Except.error` models a raised `RuntimeError`,
`Except.ok` the returned `Optional[str]` value. -/
abbrev VRes := Except String (Option String)

/-- Source `_validate_type`: the `isinstance` check for a plain class. -/
def validate_type (expected_type : PyType) (value : Value) : Option String :=
  if !(isinstance value expected_type) then
    some ("must be an instance of " ++ expected_type.typeRepr ++ ", but received "
      ++ value.typeOf.typeRepr)
  else
    none

/-- Source `_validate_typing_callable`: `isinstance(value, type(lambda a: a))`,
i.e. an instance of the `function` class; the message names
`expected_type._name`, which is always `Callable` here.  `strict` is unused,
as in the source. -/
def validate_typing_callable (value : Value) (strict : Bool) : Option String :=
  let _ := strict
  if !(isinstance value .function) then
    some ("must be an instance of Callable, but received " ++ value.typeOf.typeRepr)
  else
    none

/-- Message of `_validate_typing_dict` when both pools are non-empty. -/
def dictErrsBothMsg (d : String) (kErrs vErrs : List String) : String :=
  "must be an instance of " ++ d ++ ", but there are some errors in keys and values. "
    ++ "key errors: " ++ pyReprStrList kErrs ++ ", value errors: " ++ pyReprStrList vErrs

/-- Message of `_validate_typing_dict` when only the key pool is non-empty. -/
def dictErrsKeysMsg (d : String) (kErrs : List String) : String :=
  "must be an instance of " ++ d ++ ", but there are some errors in keys: "
    ++ pyReprStrList kErrs

/-- Message of `_validate_typing_dict` when only the value pool is non-empty. -/
def dictErrsValsMsg (d : String) (vErrs : List String) : String :=
  "must be an instance of " ++ d ++ ", but there are some errors in values: "
    ++ pyReprStrList vErrs

mutual

/-- Source `_validate_types`: dispatch on the shape of the annotation.
`isinstance(expected_type, type)` selects `_validate_type`;
`isinstance(expected_type, typing._GenericAlias)` selects
`_validate_sequential_types`; any other annotation falls through and the
function returns `None`. -/
def validate_types (expected_type : TypeDescriptor) (value : Value) (strict : Bool) : VRes :=
  match expected_type with
  | .ty t => .ok (validate_type t value)
  | .nonType _ => .ok none
  | d => validate_sequential_types d value strict
termination_by (sizeOf expected_type, 1, 0)

/-- Source `_validate_sequential_types`: dispatch on
`_validate_typing_mappings.get(expected_type._name)`, then on
the check that `str(expected_type)` starts with `typing.Union`, and finally the
strict-mode `RuntimeError` for any other generic alias.  The `ty` and
`nonType` cases model the `AttributeError` Python would raise reading
`expected_type._name`; `_validate_types` never calls them. -/
def validate_sequential_types (expected_type : TypeDescriptor) (value : Value) (strict : Bool) :
    VRes :=
  match expected_type with
  | .genList item => validate_typing_list item value strict
  | .genDict kd vd => validate_typing_dict kd vd value strict
  | .genCallable => .ok (validate_typing_callable value strict)
  | .genUnion alts => do
      let is_valid ← validate_union_any alts value strict
      if !is_valid then
        pure (some ("must be an instance of " ++ TypeDescriptor.strPy (.genUnion alts)
          ++ ", but received " ++ value.strPy))
      else
        pure none
  | .genAliasOther nm =>
      if strict then
        .error ("Unknown type of typing." ++ nm ++ " (_name = " ++ nm ++ ")")
      else
        .ok none
  | .ty t => .error ("AttributeError: " ++ t.pyName ++ " has no attribute _name")
  | .nonType _ => .error "AttributeError: no attribute _name"
termination_by (sizeOf expected_type, 0, 0)

/-- Source `_validate_typing_list`: the `isinstance(value, list)` container
check, then every element matched against `__args__[0]` (the `item`
descriptor), the truthy failures collected, and a single summary message
returned when any element failed. -/
def validate_typing_list (item : TypeDescriptor) (value : Value) (strict : Bool) : VRes :=
  if !(isinstance value .list) then
    .ok (some ("must be an instance of array, but received " ++ value.typeOf.typeRepr))
  else
    match value with
    | .list xs => do
        let errors ← validate_each item xs strict
        let errors := truthyStrs errors
        if errors.length > 0 then
          pure (some ("must be an instance of " ++ TypeDescriptor.strPy (.genList item)
            ++ ", but there are some errors: " ++ pyReprStrList errors))
        else
          pure none
    | _ => .ok none
termination_by (sizeOf item, 3, 0)

/-- Source `_validate_typing_dict`: the `isinstance(value, dict)` container
check, then the key pool matched against `__args__[0]` and the value pool
against `__args__[1]`, with the three-way message branch. -/
def validate_typing_dict (kd vd : TypeDescriptor) (value : Value) (strict : Bool) : VRes :=
  if !(isinstance value .dict) then
    .ok (some ("must be an instance of dict, but received " ++ value.typeOf.typeRepr))
  else
    match value with
    | .dict entries => do
        have hkd : 0 < sizeOf kd := by cases kd <;> simp_arith
        have hvd : 0 < sizeOf vd := by cases vd <;> simp_arith
        let key_errors ← validate_each kd (entries.map Prod.fst) strict
        let key_errors := truthyStrs key_errors
        let val_errors ← validate_each vd (entries.map Prod.snd) strict
        let val_errors := truthyStrs val_errors
        let d := TypeDescriptor.strPy (.genDict kd vd)
        if key_errors.length > 0 && val_errors.length > 0 then
          pure (some (dictErrsBothMsg d key_errors val_errors))
        else if key_errors.length > 0 then
          pure (some (dictErrsKeysMsg d key_errors))
        else if val_errors.length > 0 then
          pure (some (dictErrsValsMsg d val_errors))
        else
          pure none
    | _ => .ok none
termination_by (sizeOf kd + sizeOf vd, 3, 0)

/-- The list comprehension
`[_validate_types(expected_type=t, value=v, strict=strict) for v in value]`:
every element is evaluated eagerly, a raised error aborts the whole list. -/
def validate_each (item : TypeDescriptor) (vs : List Value) (strict : Bool) :
    Except String (List (Option String)) :=
  match vs with
  | [] => .ok []
  | v :: rest => do
      let e ← validate_types item v strict
      let es ← validate_each item rest strict
      pure (e :: es)
termination_by (sizeOf item, 2, sizeOf vs)

/-- The generator `any(_validate_types(...) is None for t in __args__)`:
alternatives evaluated left to right, short-circuiting on the first success,
so a raise in a later alternative is never reached after a success. -/
def validate_union_any (alts : List TypeDescriptor) (value : Value) (strict : Bool) :
    Except String Bool :=
  match alts with
  | [] => .ok false
  | t :: ts => do
      let r ← validate_types t value strict
      if r = none then
        pure true
      else
        validate_union_any ts value strict
termination_by (sizeOf alts, 3, 0)

end

/-- One `(field.name, field.type, getattr(target, field.name))` triple, as
enumerated by `dataclasses.fields(target)`.  The field names of a dataclass are
distinct by construction. -/
structure Field where
  name : String
  type : TypeDescriptor
  value : Value

/-- The observable outcome of `dataclass_type_validator`: normal return, a
raised `TypeValidationError` (with its positional argument and its `errors`
mapping, as an association list in field order), or a propagated
`RuntimeError`. -/
inductive ValidationOutcome where
  | ok
  | typeValidationError (arg : String) (errors : List (String × String))
  | runtimeError (msg : String)
deriving DecidableEq

/-- The `for field in fields` loop of `dataclass_type_validator`, carrying the
`errors` mapping built so far (insertion-ordered, keys distinct because field
names are). A raised `RuntimeError` aborts the loop. -/
def validator_loop (fields : List Field) (strict : Bool) (errors : List (String × String)) :
    ValidationOutcome :=
  match fields with
  | [] =>
      if errors.length > 0 then
        .typeValidationError "Dataclass Type Validation Error" errors
      else
        .ok
  | f :: rest =>
      match validate_types f.type f.value strict with
      | .error m => .runtimeError m
      | .ok none => validator_loop rest strict errors
      | .ok (some err) => validator_loop rest strict (errors ++ [(f.name, err)])

/-- Source `dataclass_type_validator`. -/
def dataclass_type_validator (fields : List Field) (strict : Bool) : ValidationOutcome :=
  validator_loop fields strict []

/-- The `errors` mapping `dataclass_type_validator` ends up with when no
field check raises: one `(field name, message)` entry for exactly the
fields whose check returned a message, in field order. -/
def collectFieldErrors (fields : List Field) (strict : Bool) : List (String × String) :=
  fields.filterMap (fun f =>
    match validate_types f.type f.value strict with
    | .ok (some e) => some (f.name, e)
    | _ => none)

/-!
Lifecycle model for `dataclass_validate` (the decorator).

A dataclass-generated `__init__` assigns all fields and then, when the class
defined `__post_init__` at generation time, invokes `self.__post_init__()` —
a dynamic lookup, so a later wrap of `__post_init__` is seen.  We model a
constructed class by the trace of events its construction produces.
-/

/-- Observable construction events. -/
inductive Event where
  | assignFields
  | userPostInit
  | validateCall
deriving DecidableEq

/-- A decorated-or-not dataclass: whether it defines `__post_init__`, the
current body of `__post_init__` (a trace), and whether `dataclass_validate`
has wrapped `__init__` to append a validation call. -/
structure DataclassType where
  hasPostInit : Bool
  postInitBody : List Event
  initWrapped : Bool

/-- The trace of constructing an instance: the generated `__init__` assigns
the fields and then calls the *current* `__post_init__` if the class defines
one; a wrapper installed on `__init__` runs the original `__init__` and then
validates. -/
def runInit (c : DataclassType) : List Event :=
  ([Event.assignFields] ++ (if c.hasPostInit then c.postInitBody else []))
    ++ (if c.initWrapped then [Event.validateCall] else [])

/-- Source `dataclass_validate` (applied to an already-generated dataclass):
when `before_post_init` is set, or the class has no `__post_init__`, wrap
`__init__`; otherwise wrap `__post_init__`.  Either wrapper runs the original
method and then `dataclass_type_validator(self)`. -/
def dataclass_validate (cls : DataclassType) (before_post_init : Bool) : DataclassType :=
  if before_post_init || !cls.hasPostInit then
    { cls with initWrapped := true }
  else
    { cls with postInitBody := cls.postInitBody ++ [Event.validateCall] }

/-! Infrastructure lemmas. -/

/-- Whether a validator call returned normally (rather than raising). -/
def vOk : VRes → Bool
  | .ok _ => true
  | .error _ => false

/-- The `Optional[str]` returned by a non-raising validator call (`none` on a
raise; meaningful only under a `vOk` hypothesis). -/
def vMsg : VRes → Option String
  | .ok m => m
  | .error _ => none

@[simp]
theorem exc_bind_ok {α β : Type} (x : α) (f : α → Except String β) :
    (Except.ok x : Except String α) >>= f = f x := rfl

@[simp]
theorem exc_bind_error {α β : Type} (e : String) (f : α → Except String β) :
    (Except.error e : Except String α) >>= f = Except.error e := rfl

@[simp]
theorem exc_pure_eq {α : Type} (x : α) :
    (pure x : Except String α) = Except.ok x := rfl

theorem vOk_iff (r : VRes) : vOk r = true ↔ ∃ m, r = .ok m := by
  cases r <;> simp [vOk]

theorem vMsg_of_ok {r : VRes} {m : Option String} (h : r = .ok m) : vMsg r = m := by
  subst h; rfl

theorem validate_types_ty (t : PyType) (v : Value) (s : Bool) :
    validate_types (.ty t) v s = .ok (validate_type t v) := by
  simp [validate_types]

theorem validate_types_nonType (a : String) (v : Value) (s : Bool) :
    validate_types (.nonType a) v s = .ok none := by
  simp [validate_types]

theorem validate_types_genList (e : TypeDescriptor) (v : Value) (s : Bool) :
    validate_types (.genList e) v s = validate_typing_list e v s := by
  simp [validate_types, validate_sequential_types]

theorem validate_types_genDict (k w : TypeDescriptor) (v : Value) (s : Bool) :
    validate_types (.genDict k w) v s = validate_typing_dict k w v s := by
  simp [validate_types, validate_sequential_types]

theorem validate_types_genCallable (v : Value) (s : Bool) :
    validate_types .genCallable v s = .ok (validate_typing_callable v s) := by
  simp [validate_types, validate_sequential_types]

theorem validate_types_genUnion (alts : List TypeDescriptor) (v : Value) (s : Bool) :
    validate_types (.genUnion alts) v s =
      (validate_union_any alts v s >>= fun is_valid =>
        if !is_valid then
          pure (some ("must be an instance of " ++ TypeDescriptor.strPy (.genUnion alts)
            ++ ", but received " ++ v.strPy))
        else
          pure none) := by
  simp [validate_types, validate_sequential_types]

theorem validate_types_genAliasOther (nm : String) (v : Value) (s : Bool) :
    validate_types (.genAliasOther nm) v s =
      (if s then
        .error ("Unknown type of typing." ++ nm ++ " (_name = " ++ nm ++ ")")
      else
        .ok none) := by
  by_cases hs : s <;> simp [validate_types, validate_sequential_types, hs]

theorem eq_empty_of_data_nil {a : String} (h : a.data = []) : a = "" := by
  cases a
  subst h
  rfl

theorem append_ne_empty_left (a b : String) (h : a ≠ "") : a ++ b ≠ "" := by
  intro hc
  have hd : a.data ++ b.data = [] := by
    have h2 := congrArg String.data hc
    simpa [String.data_append] using h2
  exact h (eq_empty_of_data_nil (List.append_eq_nil.mp hd).1)

/-- Every mismatch message the matcher can return is non-empty (each one
starts with a literal such as `must be an instance of`), so the truthiness
filter `[x for x in errors if x]` drops exactly the `None` entries. -/
theorem msg_ne_empty (d : TypeDescriptor) (v : Value) (s : Bool) (m : String)
    (h : validate_types d v s = .ok (some m)) : m ≠ "" := by
  cases d with
  | ty t =>
      rw [validate_types_ty] at h
      unfold validate_type at h
      split at h
      · rw [Except.ok.injEq, Option.some.injEq] at h
        subst h
        exact append_ne_empty_left _ _ (append_ne_empty_left _ _
          (append_ne_empty_left _ _ (by decide)))
      · simp at h
  | nonType a =>
      rw [validate_types_nonType] at h
      simp at h
  | genCallable =>
      rw [validate_types_genCallable] at h
      unfold validate_typing_callable at h
      split at h
      · rw [Except.ok.injEq, Option.some.injEq] at h
        subst h
        exact append_ne_empty_left _ _ (by decide)
      · simp at h
  | genAliasOther nm =>
      rw [validate_types_genAliasOther] at h
      split at h <;> simp at h
  | genList e =>
      rw [validate_types_genList] at h
      unfold validate_typing_list at h
      split at h
      · rw [Except.ok.injEq, Option.some.injEq] at h
        subst h
        exact append_ne_empty_left _ _ (by decide)
      · split at h
        · rcases he : validate_each e _ s with em | errs <;> rw [he] at h
          · simp at h
          · simp only [exc_bind_ok] at h
            split at h
            · rw [exc_pure_eq, Except.ok.injEq, Option.some.injEq] at h
              subst h
              exact append_ne_empty_left _ _ (append_ne_empty_left _ _
                (append_ne_empty_left _ _ (by decide)))
            · simp at h
        · simp at h
  | genDict kd vd =>
      rw [validate_types_genDict] at h
      unfold validate_typing_dict at h
      split at h
      · rw [Except.ok.injEq, Option.some.injEq] at h
        subst h
        exact append_ne_empty_left _ _ (by decide)
      · split at h
        · rcases hk : validate_each kd _ s with em | kerrs <;> rw [hk] at h
          · simp at h
          · simp only [exc_bind_ok] at h
            rcases hw : validate_each vd _ s with em2 | verrs <;> rw [hw] at h
            · simp at h
            · simp only [exc_bind_ok] at h
              split at h
              · rw [exc_pure_eq, Except.ok.injEq, Option.some.injEq] at h
                subst h
                unfold dictErrsBothMsg
                exact append_ne_empty_left _ _ (append_ne_empty_left _ _
                  (append_ne_empty_left _ _ (append_ne_empty_left _ _
                    (append_ne_empty_left _ _ (append_ne_empty_left _ _ (by decide))))))
              · split at h
                · rw [exc_pure_eq, Except.ok.injEq, Option.some.injEq] at h
                  subst h
                  unfold dictErrsKeysMsg
                  exact append_ne_empty_left _ _ (append_ne_empty_left _ _
                    (append_ne_empty_left _ _ (by decide)))
                · split at h
                  · rw [exc_pure_eq, Except.ok.injEq, Option.some.injEq] at h
                    subst h
                    unfold dictErrsValsMsg
                    exact append_ne_empty_left _ _ (append_ne_empty_left _ _
                      (append_ne_empty_left _ _ (by decide)))
                  · simp at h
        · simp at h
  | genUnion alts =>
      rw [validate_types_genUnion] at h
      rcases hu : validate_union_any alts v s with em | b <;> rw [hu] at h
      · simp at h
      · simp only [exc_bind_ok] at h
        split at h
        · rw [exc_pure_eq, Except.ok.injEq, Option.some.injEq] at h
          subst h
          exact append_ne_empty_left _ _ (append_ne_empty_left _ _
            (append_ne_empty_left _ _ (by decide)))
        · simp at h

theorem validate_each_ok (item : TypeDescriptor) (vs : List Value) (s : Bool)
    (h : ∀ v ∈ vs, vOk (validate_types item v s) = true) :
    validate_each item vs s = .ok (vs.map (fun v => vMsg (validate_types item v s))) := by
  induction vs with
  | nil => simp [validate_each]
  | cons v rest ih =>
      rcases (vOk_iff _).mp (h v (by simp)) with ⟨m, hm⟩
      rw [validate_each, hm]
      simp only [exc_bind_ok]
      rw [ih (fun w hw => h w (by simp [hw]))]
      simp [vMsg_of_ok hm]

theorem truthy_vMsg_eq_nil (item : TypeDescriptor) (vs : List Value) (s : Bool)
    (h : ∀ v ∈ vs, vOk (validate_types item v s) = true) :
    truthyStrs (vs.map (fun v => vMsg (validate_types item v s))) = []
      ↔ ∀ v ∈ vs, validate_types item v s = .ok none := by
  unfold truthyStrs
  rw [List.filterMap_map, List.filterMap_eq_nil_iff]
  constructor
  · intro hnil v hv
    have hg := hnil v hv
    rcases (vOk_iff _).mp (h v hv) with ⟨m, hm⟩
    rw [hm]
    simp only [Function.comp_apply, vMsg_of_ok hm] at hg
    cases m with
    | none => rfl
    | some msg =>
        exfalso
        by_cases he : msg = ""
        · exact msg_ne_empty item v s msg hm he
        · simp [he] at hg
  · intro hall v hv
    simp [Function.comp_apply, vMsg_of_ok (hall v hv)]

/-! Claim theorems. -/

/-- C9: for every scalar class descriptor `T` and every value `v`, the
matcher dispatches `Scalar(T)` to the `isinstance` check, which succeeds iff
`v` is an instance of `T`; on failure the returned message embeds the
expected class `T` and the actual runtime class of the value. -/
theorem C9_scalar_match (t : PyType) (v : Value) (s : Bool) :
    validate_types (.ty t) v s = .ok (validate_type t v)
    ∧ (validate_type t v = none ↔ isinstance v t = true)
    ∧ (isinstance v t = false →
        validate_type t v = some ("must be an instance of " ++ t.typeRepr
          ++ ", but received " ++ v.typeOf.typeRepr)) := by
  refine ⟨validate_types_ty t v s, ?_, ?_⟩
  · unfold validate_type
    by_cases h : isinstance v t <;> simp [h]
  · intro h
    unfold validate_type
    simp [h]

/-- C9 witness: the string `"30"` against the class `int` fails with the
documented message. -/
theorem C9_scalar_match_witness :
    validate_type .int (.str "30")
      = some ("must be an instance of " ++ PyType.typeRepr .int
          ++ ", but received " ++ (Value.str "30").typeOf.typeRepr) :=
  (C9_scalar_match .int (.str "30") false).2.2 (by decide)

/-- C3: decorating a dataclass that defines `__post_init__` with
`before_post_init=True` does not run validation before the custom
post-init logic.  The decorator wraps `__init__`, but the generated
`__init__` itself invokes `__post_init__`, so the construction trace is
assign-fields, then the user post-init logic, then the validation call —
the docstring ("force the validation logic to occur before `__post_init__`
is called") and the claim are violated. -/
theorem C3_before_post_init_trace :
    runInit (dataclass_validate ⟨true, [Event.userPostInit], false⟩ true)
      = [Event.assignFields, Event.userPostInit, Event.validateCall] := by
  decide

/-- C2 counterexample: a field annotation outside the matcher grammar that
is not a `typing` generic alias — e.g. a string annotation, modelled by
`nonType` — does not raise in strict mode; validation returns normally, so
the claim as stated is false. -/
theorem C2_counterexample :
    dataclass_type_validator [⟨"x", .nonType "int", .int 0⟩] true = .ok := by
  simp [dataclass_type_validator, validator_loop, validate_types]

/-- C2 (amended): in strict mode a field whose annotation is an unrecognized
`typing` generic alias makes validation raise a `RuntimeError` — a kind
distinct from `TypeValidationError` — regardless of the value of the field, and
with strict off the same field is an unconditional pass; but an annotation
that is neither a class nor a `typing` generic alias is an unconditional
pass in both modes. -/
theorem C2_strict_unrecognized (nm fname : String) (v : Value) :
    dataclass_type_validator [⟨fname, .genAliasOther nm, v⟩] true
        = .runtimeError ("Unknown type of typing." ++ nm ++ " (_name = " ++ nm ++ ")")
    ∧ dataclass_type_validator [⟨fname, .genAliasOther nm, v⟩] false = .ok
    ∧ (∀ a : String, ∀ s : Bool,
        dataclass_type_validator [⟨fname, .nonType a, v⟩] s = .ok) := by
  refine ⟨?_, ?_, fun a s => ?_⟩ <;>
    simp [dataclass_type_validator, validator_loop, validate_types_genAliasOther,
      validate_types_nonType]

/-- C4 counterexample: the built-in function `len` is invocable, yet the
`Callable` matcher rejects it, because the code tests membership in
`type(lambda a: a)` and a built-in function is not an instance of the
`function` class.  This refutes "success iff the value is invocable". -/
theorem C4_counterexample :
    invocable (Value.builtinFunc "len") = true
    ∧ validate_types .genCallable (Value.builtinFunc "len") false
        = .ok (some ("must be an instance of Callable, but received "
            ++ PyType.typeRepr .builtinFunction)) := by
  constructor
  · rfl
  · rw [validate_types_genCallable]
    rfl

/-- C4 (amended): matching a value against `Callable` succeeds iff the value
is an instance of the `function` class (a `def`- or `lambda`-defined
function) — not iff it is invocable — and on failure the message names the
`Callable` descriptor and the actual runtime class of the value. -/
theorem C4_callable_match (v : Value) (s : Bool) :
    (validate_types .genCallable v s = .ok none ↔ isinstance v .function = true)
    ∧ (isinstance v .function = false →
        validate_types .genCallable v s
          = .ok (some ("must be an instance of Callable, but received "
              ++ v.typeOf.typeRepr))) := by
  rw [validate_types_genCallable]
  constructor
  · unfold validate_typing_callable
    by_cases h : isinstance v .function <;> simp [h]
  · intro h
    simp [validate_typing_callable, h]

/-- C4 witness: an `int` is not a function, and the amended failure message
is produced for it. -/
theorem C4_callable_match_witness :
    validate_types .genCallable (Value.int 3) false
      = .ok (some ("must be an instance of Callable, but received "
          ++ (Value.int 3).typeOf.typeRepr)) :=
  (C4_callable_match (Value.int 3) false).2 (by decide)

/-- C10: the container check of `Sequence(E)` is `isinstance(value, list)`:
any non-list value — tuple, string, or any other kind — is rejected with the
container-kind mismatch message regardless of its elements, while any list,
including the empty one, passes the container check and is accepted whenever
all its elements match `E`. -/
theorem C10_list_container (e : TypeDescriptor) (xs : List Value) (s : Bool) (v : Value) :
    (isinstance v .list = false →
      validate_types (.genList e) v s
        = .ok (some ("must be an instance of array, but received " ++ v.typeOf.typeRepr)))
    ∧ ((∀ w ∈ xs, validate_types e w s = .ok none) →
        validate_types (.genList e) (.list xs) s = .ok none)
    ∧ validate_types (.genList e) (.list []) s = .ok none := by
  refine ⟨?_, ?_, ?_⟩
  · intro h
    rw [validate_types_genList]
    unfold validate_typing_list
    simp [h]
  · intro hall
    have hok : ∀ w ∈ xs, vOk (validate_types e w s) = true := by
      intro w hw
      rw [hall w hw]
      rfl
    rw [validate_types_genList]
    unfold validate_typing_list
    simp only [isinstance, Value.typeOf, beq_self_eq_true, Bool.true_or, Bool.not_true]
    rw [validate_each_ok e xs s hok]
    simp only [exc_bind_ok]
    rw [(truthy_vMsg_eq_nil e xs s hok).mpr hall]
    simp
  · rw [validate_types_genList]
    simp [validate_typing_list, validate_each, truthyStrs, isinstance, Value.typeOf]

/-- C10 witness: a string value is rejected by the container check with the
container-kind message, and the empty list passes. -/
theorem C10_list_container_witness :
    validate_types (.genList (.ty .int)) (.str "ab") false
      = .ok (some ("must be an instance of array, but received "
          ++ (Value.str "ab").typeOf.typeRepr)) :=
  (C10_list_container (.ty .int) [] false (.str "ab")).1 (by decide)

theorem validate_typing_list_form (e : TypeDescriptor) (xs : List Value) (s : Bool)
    (h : ∀ w ∈ xs, vOk (validate_types e w s) = true) :
    validate_types (.genList e) (.list xs) s
      = (if (truthyStrs (xs.map (fun w => vMsg (validate_types e w s)))).length > 0
         then .ok (some ("must be an instance of " ++ TypeDescriptor.strPy (.genList e)
            ++ ", but there are some errors: "
            ++ pyReprStrList (truthyStrs (xs.map (fun w => vMsg (validate_types e w s))))))
         else .ok none) := by
  rw [validate_types_genList]
  unfold validate_typing_list
  simp only [isinstance, Value.typeOf, beq_self_eq_true, Bool.true_or, Bool.not_true]
  rw [validate_each_ok e xs s h]
  simp only [exc_bind_ok]
  split <;> simp_all

/-- C5: for every element descriptor `E`, matching a collection against
`Sequence(E)` succeeds iff the collection is a list and every element
independently satisfies `E` (so a single non-conforming element fails the
whole field), and on an element failure the message summarizes the
descriptor together with the list of element errors. -/
theorem C5_sequence_match (e : TypeDescriptor) (xs : List Value) (s : Bool) (v : Value)
    (h : ∀ w ∈ xs, vOk (validate_types e w s) = true) :
    (validate_types (.genList e) (.list xs) s = .ok none
      ↔ ∀ w ∈ xs, validate_types e w s = .ok none)
    ∧ (truthyStrs (xs.map (fun w => vMsg (validate_types e w s))) ≠ [] →
        validate_types (.genList e) (.list xs) s
          = .ok (some ("must be an instance of " ++ TypeDescriptor.strPy (.genList e)
              ++ ", but there are some errors: "
              ++ pyReprStrList (truthyStrs (xs.map (fun w => vMsg (validate_types e w s)))))))
    ∧ (isinstance v .list = false → validate_types (.genList e) v s ≠ .ok none) := by
  refine ⟨?_, ?_, ?_⟩
  · rw [validate_typing_list_form e xs s h]
    constructor
    · intro hok
      by_cases hlen : (truthyStrs (xs.map (fun w => vMsg (validate_types e w s)))).length > 0
      · simp [hlen] at hok
      · have hnil : truthyStrs (xs.map (fun w => vMsg (validate_types e w s))) = [] := by
          simpa [List.length_eq_zero] using hlen
        exact (truthy_vMsg_eq_nil e xs s h).mp hnil
    · intro hall
      have hnil := (truthy_vMsg_eq_nil e xs s h).mpr hall
      simp [hnil]
  · intro hne
    rw [validate_typing_list_form e xs s h]
    have hlen : 0 < (truthyStrs (xs.map (fun w => vMsg (validate_types e w s)))).length :=
      List.length_pos.mpr hne
    simp [hlen]
  · intro hv
    rw [validate_types_genList]
    unfold validate_typing_list
    simp [hv]

/-- C5 witness: `[1, "2", 3]` against `Sequence(int)` fails with exactly the
one element error, and the success criterion matches elementwise success. -/
theorem C5_sequence_match_witness :
    (validate_types (.genList (.ty .int)) (.list [.int 1, .str "2", .int 3]) false = .ok none
      ↔ ∀ w ∈ [Value.int 1, Value.str "2", Value.int 3],
          validate_types (.ty .int) w false = .ok none)
    ∧ (truthyStrs ([Value.int 1, Value.str "2", Value.int 3].map
          (fun w => vMsg (validate_types (.ty .int) w false))) ≠ [] →
        validate_types (.genList (.ty .int)) (.list [.int 1, .str "2", .int 3]) false
          = .ok (some ("must be an instance of "
              ++ TypeDescriptor.strPy (.genList (.ty .int))
              ++ ", but there are some errors: "
              ++ pyReprStrList (truthyStrs ([Value.int 1, Value.str "2", Value.int 3].map
                  (fun w => vMsg (validate_types (.ty .int) w false)))))))
    ∧ (isinstance (Value.tuple [.int 1]) .list = false →
        validate_types (.genList (.ty .int)) (.tuple [.int 1]) false ≠ .ok none) :=
  C5_sequence_match (.ty .int) [.int 1, .str "2", .int 3] false (.tuple [.int 1])
    (by
      intro w hw
      fin_cases hw <;> simp [validate_types_ty, vOk])

theorem validate_typing_dict_form (kd vd : TypeDescriptor) (entries : List (Value × Value))
    (s : Bool)
    (hk : ∀ k ∈ entries.map Prod.fst, vOk (validate_types kd k s) = true)
    (hw : ∀ w ∈ entries.map Prod.snd, vOk (validate_types vd w s) = true) :
    validate_types (.genDict kd vd) (.dict entries) s
      = (if 0 < (truthyStrs ((entries.map Prod.fst).map
              (fun k => vMsg (validate_types kd k s)))).length
            ∧ 0 < (truthyStrs ((entries.map Prod.snd).map
              (fun w => vMsg (validate_types vd w s)))).length
         then .ok (some (dictErrsBothMsg (TypeDescriptor.strPy (.genDict kd vd))
            (truthyStrs ((entries.map Prod.fst).map (fun k => vMsg (validate_types kd k s))))
            (truthyStrs ((entries.map Prod.snd).map (fun w => vMsg (validate_types vd w s))))))
         else if 0 < (truthyStrs ((entries.map Prod.fst).map
              (fun k => vMsg (validate_types kd k s)))).length
         then .ok (some (dictErrsKeysMsg (TypeDescriptor.strPy (.genDict kd vd))
            (truthyStrs ((entries.map Prod.fst).map (fun k => vMsg (validate_types kd k s))))))
         else if 0 < (truthyStrs ((entries.map Prod.snd).map
              (fun w => vMsg (validate_types vd w s)))).length
         then .ok (some (dictErrsValsMsg (TypeDescriptor.strPy (.genDict kd vd))
            (truthyStrs ((entries.map Prod.snd).map (fun w => vMsg (validate_types vd w s))))))
         else .ok none) := by
  rw [validate_types_genDict]
  unfold validate_typing_dict
  simp only [isinstance, Value.typeOf, beq_self_eq_true, Bool.true_or, Bool.not_true]
  rw [if_neg (by decide : ¬(false = true))]
  rw [validate_each_ok kd (entries.map Prod.fst) s hk]
  simp only [exc_bind_ok]
  rw [validate_each_ok vd (entries.map Prod.snd) s hw]
  simp only [exc_bind_ok]
  simp only [Bool.and_eq_true, decide_eq_true_eq, gt_iff_lt, exc_pure_eq]

/-- C6: matching a value against `Mapping(K, V)` succeeds iff the value is a
dict, every key satisfies `K` and every value satisfies `V`; keys and values
are validated as two separate pools, so the outcome depends only on the key
pool and the value pool, not on how they are paired into entries. -/
theorem C6_mapping_match (kd vd : TypeDescriptor) (entries : List (Value × Value)) (s : Bool)
    (v : Value)
    (hk : ∀ k ∈ entries.map Prod.fst, vOk (validate_types kd k s) = true)
    (hw : ∀ w ∈ entries.map Prod.snd, vOk (validate_types vd w s) = true) :
    (validate_types (.genDict kd vd) (.dict entries) s = .ok none
      ↔ (∀ k ∈ entries.map Prod.fst, validate_types kd k s = .ok none)
        ∧ (∀ w ∈ entries.map Prod.snd, validate_types vd w s = .ok none))
    ∧ (isinstance v .dict = false → validate_types (.genDict kd vd) v s ≠ .ok none)
    ∧ (∀ entries2 : List (Value × Value),
        entries.map Prod.fst = entries2.map Prod.fst →
        entries.map Prod.snd = entries2.map Prod.snd →
        validate_types (.genDict kd vd) (.dict entries) s
          = validate_types (.genDict kd vd) (.dict entries2) s) := by
  refine ⟨?_, ?_, ?_⟩
  · rw [validate_typing_dict_form kd vd entries s hk hw]
    constructor
    · intro hok
      by_cases h1 : 0 < (truthyStrs ((entries.map Prod.fst).map
          (fun k => vMsg (validate_types kd k s)))).length <;>
        by_cases h2 : 0 < (truthyStrs ((entries.map Prod.snd).map
          (fun w => vMsg (validate_types vd w s)))).length
      · rw [if_pos ⟨h1, h2⟩] at hok
        exact absurd hok (by simp)
      · rw [if_neg (fun hc => h2 hc.2), if_pos h1] at hok
        exact absurd hok (by simp)
      · rw [if_neg (fun hc => h1 hc.1), if_neg h1, if_pos h2] at hok
        exact absurd hok (by simp)
      · have hknil : truthyStrs ((entries.map Prod.fst).map
            (fun k => vMsg (validate_types kd k s))) = [] := by
          simpa [List.length_eq_zero] using h1
        have hwnil : truthyStrs ((entries.map Prod.snd).map
            (fun w => vMsg (validate_types vd w s))) = [] := by
          simpa [List.length_eq_zero] using h2
        exact ⟨(truthy_vMsg_eq_nil kd (entries.map Prod.fst) s hk).mp hknil,
          (truthy_vMsg_eq_nil vd (entries.map Prod.snd) s hw).mp hwnil⟩
    · intro hall
      have hknil := (truthy_vMsg_eq_nil kd (entries.map Prod.fst) s hk).mpr hall.1
      have hwnil := (truthy_vMsg_eq_nil vd (entries.map Prod.snd) s hw).mpr hall.2
      rw [hknil, hwnil]
      simp
  · intro hv
    rw [validate_types_genDict]
    unfold validate_typing_dict
    simp [hv]
  · intro entries2 h1 h2
    rw [validate_types_genDict, validate_types_genDict]
    unfold validate_typing_dict
    simp only [isinstance, Value.typeOf, beq_self_eq_true, Bool.true_or, Bool.not_true]
    rw [h1, h2]

/-- C6 witness: `{"a": "b"}` against `Mapping(str, int)` is characterized by
its two pools, and a non-dict is rejected. -/
theorem C6_mapping_match_witness :
    (validate_types (.genDict (.ty .str) (.ty .int)) (.dict [(.str "a", .str "b")]) false
        = .ok none
      ↔ (∀ k ∈ [(Value.str "a", Value.str "b")].map Prod.fst,
            validate_types (.ty .str) k false = .ok none)
        ∧ (∀ w ∈ [(Value.str "a", Value.str "b")].map Prod.snd,
            validate_types (.ty .int) w false = .ok none))
    ∧ (isinstance (Value.int 7) .dict = false →
        validate_types (.genDict (.ty .str) (.ty .int)) (.int 7) false ≠ .ok none)
    ∧ (∀ entries2 : List (Value × Value),
        [(Value.str "a", Value.str "b")].map Prod.fst = entries2.map Prod.fst →
        [(Value.str "a", Value.str "b")].map Prod.snd = entries2.map Prod.snd →
        validate_types (.genDict (.ty .str) (.ty .int))
            (.dict [(.str "a", .str "b")]) false
          = validate_types (.genDict (.ty .str) (.ty .int)) (.dict entries2) false) :=
  C6_mapping_match (.ty .str) (.ty .int) [(.str "a", .str "b")] false (.int 7)
    (by
      intro k hk
      fin_cases hk <;> simp [validate_types_ty, vOk])
    (by
      intro w hw
      fin_cases hw <;> simp [validate_types_ty, vOk])

theorem append_head_ne {q r : List Char} (a b : List Char) (n : Nat)
    (h1 : n < q.length) (h2 : n < r.length) (hne : q[n]? ≠ r[n]?) :
    q ++ a ≠ r ++ b := by
  intro hc
  have h3 : (q ++ a)[n]? = (r ++ b)[n]? := by rw [hc]
  rw [List.getElem?_append_left h1, List.getElem?_append_left h2] at h3
  exact hne h3

theorem dictKeysMsg_ne_bothMsg (d : String) (k1 k2 v2 : List String) :
    dictErrsKeysMsg d k1 ≠ dictErrsBothMsg d k2 v2 := by
  intro hc
  have hd := congrArg String.data hc
  simp only [dictErrsKeysMsg, dictErrsBothMsg, String.data_append, List.append_assoc] at hd
  exact append_head_ne _ _ 35 (by decide) (by decide) (by decide)
    (List.append_cancel_left (List.append_cancel_left hd))

theorem dictKeysMsg_ne_valsMsg (d : String) (k1 v1 : List String) :
    dictErrsKeysMsg d k1 ≠ dictErrsValsMsg d v1 := by
  intro hc
  have hd := congrArg String.data hc
  simp only [dictErrsKeysMsg, dictErrsValsMsg, String.data_append, List.append_assoc] at hd
  exact append_head_ne _ _ 31 (by decide) (by decide) (by decide)
    (List.append_cancel_left (List.append_cancel_left hd))

/-- C7: a mapping with at least one key failure and no value failure produces
the keys-only message, which differs — for the same `Mapping(K, V)`
descriptor and whatever the error pools contain — from the message produced
when both pools are non-empty, and from the values-only message. -/
theorem C7_dict_message_branching (kd vd : TypeDescriptor) (entries : List (Value × Value))
    (s : Bool)
    (hk : ∀ k ∈ entries.map Prod.fst, vOk (validate_types kd k s) = true)
    (hw : ∀ w ∈ entries.map Prod.snd, vOk (validate_types vd w s) = true)
    (hkey : truthyStrs ((entries.map Prod.fst).map
      (fun k => vMsg (validate_types kd k s))) ≠ [])
    (hval : truthyStrs ((entries.map Prod.snd).map
      (fun w => vMsg (validate_types vd w s))) = []) :
    validate_types (.genDict kd vd) (.dict entries) s
      = .ok (some (dictErrsKeysMsg (TypeDescriptor.strPy (.genDict kd vd))
          (truthyStrs ((entries.map Prod.fst).map (fun k => vMsg (validate_types kd k s))))))
    ∧ (∀ kE kE2 vE2 vE3 : List String,
        dictErrsKeysMsg (TypeDescriptor.strPy (.genDict kd vd)) kE
            ≠ dictErrsBothMsg (TypeDescriptor.strPy (.genDict kd vd)) kE2 vE2
        ∧ dictErrsKeysMsg (TypeDescriptor.strPy (.genDict kd vd)) kE
            ≠ dictErrsValsMsg (TypeDescriptor.strPy (.genDict kd vd)) vE3) := by
  constructor
  · rw [validate_typing_dict_form kd vd entries s hk hw]
    have hp : 0 < (truthyStrs ((entries.map Prod.fst).map
        (fun k => vMsg (validate_types kd k s)))).length := List.length_pos.mpr hkey
    rw [hval]
    rw [if_neg (by simp), if_pos hp]
  · intro kE kE2 vE2 vE3
    exact ⟨dictKeysMsg_ne_bothMsg _ kE kE2 vE2, dictKeysMsg_ne_valsMsg _ kE vE3⟩

/-- C7 witness: `{5: 1}` against `Mapping(str, int)` has one key failure and
no value failure, and receives the keys-only message. -/
theorem C7_dict_message_branching_witness :
    validate_types (.genDict (.ty .str) (.ty .int)) (.dict [(.int 5, .int 1)]) false
      = .ok (some (dictErrsKeysMsg (TypeDescriptor.strPy (.genDict (.ty .str) (.ty .int)))
          (truthyStrs ([(Value.int 5, Value.int 1)].map Prod.fst |>.map
            (fun k => vMsg (validate_types (.ty .str) k false))))))
    ∧ (∀ kE kE2 vE2 vE3 : List String,
        dictErrsKeysMsg (TypeDescriptor.strPy (.genDict (.ty .str) (.ty .int))) kE
            ≠ dictErrsBothMsg (TypeDescriptor.strPy (.genDict (.ty .str) (.ty .int))) kE2 vE2
        ∧ dictErrsKeysMsg (TypeDescriptor.strPy (.genDict (.ty .str) (.ty .int))) kE
            ≠ dictErrsValsMsg (TypeDescriptor.strPy (.genDict (.ty .str) (.ty .int))) vE3) :=
  C7_dict_message_branching (.ty .str) (.ty .int) [(.int 5, .int 1)] false
    (by
      intro k hk
      fin_cases hk <;> simp [validate_types_ty, vOk])
    (by
      intro w hw
      fin_cases hw <;> simp [validate_types_ty, vOk])
    (by
      simp [validate_types_ty, vMsg, validate_type, isinstance, Value.typeOf, truthyStrs]
      decide)
    (by simp [validate_types_ty, vMsg, validate_type, isinstance, Value.typeOf, truthyStrs])

theorem validate_union_any_ok (alts : List TypeDescriptor) (v : Value) (s : Bool)
    (h : ∀ t ∈ alts, vOk (validate_types t v s) = true) :
    validate_union_any alts v s
      = .ok (alts.any (fun t => (vMsg (validate_types t v s)).isNone)) := by
  induction alts with
  | nil => simp [validate_union_any]
  | cons t ts ih =>
      rcases (vOk_iff _).mp (h t (by simp)) with ⟨m, hm⟩
      rw [validate_union_any, hm]
      simp only [exc_bind_ok]
      cases m with
      | none => simp [vMsg_of_ok hm]
      | some msg =>
          rw [if_neg (by simp)]
          rw [ih (fun u hu => h u (by simp [hu]))]
          simp [vMsg_of_ok hm]

theorem union_success_iff (alts : List TypeDescriptor) (v : Value) (s : Bool)
    (h : ∀ t ∈ alts, vOk (validate_types t v s) = true) :
    validate_types (.genUnion alts) v s = .ok none
      ↔ ∃ t ∈ alts, validate_types t v s = .ok none := by
  rw [validate_types_genUnion, validate_union_any_ok alts v s h]
  simp only [exc_bind_ok]
  constructor
  · intro hok
    by_cases hany : alts.any (fun t => (vMsg (validate_types t v s)).isNone) = true
    · rcases List.any_eq_true.mp hany with ⟨t, ht, hnone⟩
      rcases (vOk_iff _).mp (h t ht) with ⟨m, hm⟩
      refine ⟨t, ht, ?_⟩
      rw [hm]
      rw [vMsg_of_ok hm] at hnone
      rw [Option.isNone_iff_eq_none.mp hnone]
    · rw [Bool.not_eq_true] at hany
      rw [hany] at hok
      simp at hok
  · intro ⟨t, ht, hpass⟩
    have hany : alts.any (fun t => (vMsg (validate_types t v s)).isNone) = true :=
      List.any_eq_true.mpr ⟨t, ht, by rw [vMsg_of_ok hpass]; rfl⟩
    rw [hany]
    simp

/-- C8 counterexample: with strict mode on, `Union[int, typing.Set]` accepts
the value `1` (the first alternative matches and the generator in `any`
short-circuits), but the permuted `Union[typing.Set, int]` raises a
`RuntimeError` on the same value because the unrecognized alias is evaluated
first — so permuting the alternatives changes the observable outcome,
refuting the claim as stated. -/
theorem C8_counterexample :
    validate_types (.genUnion [.ty .int, .genAliasOther "Set"]) (.int 1) true = .ok none
    ∧ validate_types (.genUnion [.genAliasOther "Set", .ty .int]) (.int 1) true
        = .error ("Unknown type of typing.Set (_name = Set)") := by
  constructor <;>
    simp [validate_types, validate_sequential_types, validate_union_any, validate_type,
      isinstance, Value.typeOf]

/-- C8 (amended): whenever the evaluation of no alternative raises a strict-mode
configuration error (in particular always with strict off), matching against
a `Union` succeeds iff the value matches at least one alternative, permuting
the alternatives never changes the pass/fail outcome, and on total failure
the message embeds the expected union descriptor and the raw value. -/
theorem C8_union_match (alts alts2 : List TypeDescriptor) (v : Value) (s : Bool)
    (h : ∀ t ∈ alts, vOk (validate_types t v s) = true)
    (hp : alts.Perm alts2) :
    (validate_types (.genUnion alts) v s = .ok none
      ↔ ∃ t ∈ alts, validate_types t v s = .ok none)
    ∧ (validate_types (.genUnion alts2) v s = .ok none
      ↔ validate_types (.genUnion alts) v s = .ok none)
    ∧ ((¬ ∃ t ∈ alts, validate_types t v s = .ok none) →
        validate_types (.genUnion alts) v s
          = .ok (some ("must be an instance of " ++ TypeDescriptor.strPy (.genUnion alts)
              ++ ", but received " ++ v.strPy))) := by
  have h2 : ∀ t ∈ alts2, vOk (validate_types t v s) = true :=
    fun t ht => h t (hp.mem_iff.mpr ht)
  refine ⟨union_success_iff alts v s h, ?_, ?_⟩
  · rw [union_success_iff alts v s h, union_success_iff alts2 v s h2]
    constructor
    · intro ⟨t, ht, hpass⟩
      exact ⟨t, hp.mem_iff.mpr ht, hpass⟩
    · intro ⟨t, ht, hpass⟩
      exact ⟨t, hp.mem_iff.mp ht, hpass⟩
  · intro hnone
    rw [validate_types_genUnion, validate_union_any_ok alts v s h]
    have hany : alts.any (fun t => (vMsg (validate_types t v s)).isNone) = false := by
      rw [List.any_eq_false]
      intro t ht hnone2
      rcases (vOk_iff _).mp (h t ht) with ⟨m, hm⟩
      rw [vMsg_of_ok hm] at hnone2
      exact hnone ⟨t, ht, by rw [hm, Option.isNone_iff_eq_none.mp hnone2]⟩
    rw [hany]
    simp

/-- C8 witness: `3.14` matches neither `int` nor `str`, the union fails with
the holistic message, and the permuted union has the same pass/fail
outcome. -/
theorem C8_union_match_witness :
    (validate_types (.genUnion [.ty .int, .ty .str]) (.float "3.14") false = .ok none
      ↔ ∃ t ∈ [TypeDescriptor.ty .int, TypeDescriptor.ty .str],
          validate_types t (.float "3.14") false = .ok none)
    ∧ (validate_types (.genUnion [.ty .str, .ty .int]) (.float "3.14") false = .ok none
      ↔ validate_types (.genUnion [.ty .int, .ty .str]) (.float "3.14") false = .ok none)
    ∧ ((¬ ∃ t ∈ [TypeDescriptor.ty .int, TypeDescriptor.ty .str],
          validate_types t (.float "3.14") false = .ok none) →
        validate_types (.genUnion [.ty .int, .ty .str]) (.float "3.14") false
          = .ok (some ("must be an instance of "
              ++ TypeDescriptor.strPy (.genUnion [.ty .int, .ty .str])
              ++ ", but received " ++ (Value.float "3.14").strPy))) :=
  C8_union_match [.ty .int, .ty .str] [.ty .str, .ty .int] (.float "3.14") false
    (by
      intro t ht
      fin_cases ht <;> simp [validate_types_ty, vOk])
    (List.Perm.swap _ _ _)

theorem validator_loop_no_raise (fields : List Field) (strict : Bool)
    (acc : List (String × String))
    (h : ∀ f ∈ fields, vOk (validate_types f.type f.value strict) = true) :
    validator_loop fields strict acc
      = (if (acc ++ collectFieldErrors fields strict).length > 0
         then .typeValidationError "Dataclass Type Validation Error"
            (acc ++ collectFieldErrors fields strict)
         else .ok) := by
  induction fields generalizing acc with
  | nil => simp [validator_loop, collectFieldErrors]
  | cons f rest ih =>
      rcases (vOk_iff _).mp (h f (by simp)) with ⟨m, hm⟩
      have hrest : ∀ g ∈ rest, vOk (validate_types g.type g.value strict) = true :=
        fun g hg => h g (by simp [hg])
      cases m with
      | none =>
          simp only [validator_loop, hm]
          rw [ih acc hrest]
          simp [collectFieldErrors, List.filterMap_cons, hm]
      | some e =>
          simp only [validator_loop, hm]
          rw [ih (acc ++ [(f.name, e)]) hrest]
          simp [collectFieldErrors, List.filterMap_cons, hm]

/-- C1: when no field check raises, validation checks every field (no
fail-fast truncation), raising a `TypeValidationError` whose `errors`
mapping holds exactly one entry per failing field, keyed by the name of
the field, in field order; with zero failing fields it returns normally. -/
theorem C1_aggregation_total (fields : List Field) (strict : Bool)
    (h : ∀ f ∈ fields, vOk (validate_types f.type f.value strict) = true) :
    dataclass_type_validator fields strict
      = (if (collectFieldErrors fields strict).length > 0
         then .typeValidationError "Dataclass Type Validation Error"
            (collectFieldErrors fields strict)
         else .ok)
    ∧ (collectFieldErrors fields strict).map Prod.fst
        = (fields.filter
            (fun f => !(vMsg (validate_types f.type f.value strict)).isNone)).map Field.name
    ∧ (collectFieldErrors fields strict).length
        = (fields.filter
            (fun f => !(vMsg (validate_types f.type f.value strict)).isNone)).length := by
  have hmap : (collectFieldErrors fields strict).map Prod.fst
      = (fields.filter
          (fun f => !(vMsg (validate_types f.type f.value strict)).isNone)).map Field.name := by
    induction fields with
    | nil => simp [collectFieldErrors]
    | cons f rest ih =>
        have hfr : ∀ g ∈ rest, vOk (validate_types g.type g.value strict) = true :=
          fun g hg => h g (by simp [hg])
        have hrest := ih hfr
        rcases (vOk_iff _).mp (h f (by simp)) with ⟨m, hm⟩
        cases m with
        | none =>
            have hcollect : collectFieldErrors (f :: rest) strict
                = collectFieldErrors rest strict := by
              simp [collectFieldErrors, List.filterMap_cons, hm]
            have hfilter : (f :: rest).filter
                  (fun g => !(vMsg (validate_types g.type g.value strict)).isNone)
                = rest.filter
                  (fun g => !(vMsg (validate_types g.type g.value strict)).isNone) := by
              simp [List.filter_cons, hm, vMsg]
            rw [hcollect, hfilter]
            exact hrest
        | some e =>
            have hcollect : collectFieldErrors (f :: rest) strict
                = (f.name, e) :: collectFieldErrors rest strict := by
              simp [collectFieldErrors, List.filterMap_cons, hm]
            have hfilter : (f :: rest).filter
                  (fun g => !(vMsg (validate_types g.type g.value strict)).isNone)
                = f :: rest.filter
                  (fun g => !(vMsg (validate_types g.type g.value strict)).isNone) := by
              simp [List.filter_cons, hm, vMsg]
            rw [hcollect, hfilter, List.map_cons, List.map_cons, hrest]
  refine ⟨?_, hmap, ?_⟩
  · have := validator_loop_no_raise fields strict [] h
    simpa [dataclass_type_validator] using this
  · have h1 := congrArg List.length hmap
    simpa using h1

/-- C1 witness: `{name: str = "Alice", age: int = "30"}` has exactly one
failing field, keyed `age`. -/
theorem C1_aggregation_total_witness :
    dataclass_type_validator
        [⟨"name", .ty .str, .str "Alice"⟩, ⟨"age", .ty .int, .str "30"⟩] false
      = (if (collectFieldErrors
            [⟨"name", .ty .str, .str "Alice"⟩, ⟨"age", .ty .int, .str "30"⟩] false).length > 0
         then .typeValidationError "Dataclass Type Validation Error"
            (collectFieldErrors
              [⟨"name", .ty .str, .str "Alice"⟩, ⟨"age", .ty .int, .str "30"⟩] false)
         else .ok)
    ∧ (collectFieldErrors
          [⟨"name", .ty .str, .str "Alice"⟩, ⟨"age", .ty .int, .str "30"⟩] false).map Prod.fst
        = (([⟨"name", .ty .str, .str "Alice"⟩,
             ⟨"age", .ty .int, .str "30"⟩] : List Field).filter
            (fun f => !(vMsg (validate_types f.type f.value false)).isNone)).map Field.name
    ∧ (collectFieldErrors
          [⟨"name", .ty .str, .str "Alice"⟩, ⟨"age", .ty .int, .str "30"⟩] false).length
        = (([⟨"name", .ty .str, .str "Alice"⟩,
             ⟨"age", .ty .int, .str "30"⟩] : List Field).filter
            (fun f => !(vMsg (validate_types f.type f.value false)).isNone)).length :=
  C1_aggregation_total
    [⟨"name", .ty .str, .str "Alice"⟩, ⟨"age", .ty .int, .str "30"⟩] false
    (by
      intro f hf
      fin_cases hf <;> simp [validate_types_ty, vOk])

end DTV
